import Mathlib

/-!
Shallow embedding of the sprite-group renderer in `src/sprite.rs`
(`SpriteRender`, `SpriteGroup`, `GPUSprite`, `GPUCamera` and the public
methods `add_sprite_group`, `set_camera`, `set_camera_all`,
`refresh_sprites`, `get_sprite_mut`, `get_sprites`, `get_all_sprites_mut`,
`group_size`, `render`, `update_position`, `platform_move`).

Modelling conventions:
* `f32` scalars are modelled by the uninterpreted decidable scalar `F32`
  (an `Int`); no claim under consideration depends on floating-point
  arithmetic, only on which scalar values are stored and moved.
* `bytemuck` serialization is modelled at byte granularity: the four bytes
  of one `f32` value `v` are the four cells `(v, lane)` for `lane < 4`.
  This is information-preserving for data movement: distinct bit patterns
  give distinct byte cells, and each sprite record occupies exactly
  32 byte cells, each camera record exactly 16, matching `repr(C)` layout.
* A `wgpu::Buffer` is a fixed-length list of byte cells, `none` for bytes
  never written.  `Queue::write_buffer` splices bytes at a byte offset and
  fails (models a wgpu validation error) if the write overruns the buffer.
* Rust methods that can panic on out-of-range indices or slices return
  `Option`; `none` models the panic (the renderer state is not updated).
* `&mut self` methods become explicit state passing
  `SpriteRender → … → Option SpriteRender`.
* `render` records commands into the render pass, modelled as the list of
  commands recorded so far; each group's bind groups are identified by the
  owning group's registry index (each group owns its own bind groups).
-/

/-- Model of a Rust `f32` scalar: uninterpreted but decidable. -/
abbrev F32 := Int

/-- A `[f32; 4]` field, as in `screen_region` and `sheet_region`. -/
structure Arr4 where
  x0 : F32
  x1 : F32
  x2 : F32
  x3 : F32
deriving DecidableEq, Repr

/-- A `[f32; 2]` field, as in `screen_pos` and `screen_size`. -/
structure Arr2 where
  x0 : F32
  x1 : F32
deriving DecidableEq, Repr

/-- `GPUSprite` from src/sprite.rs: screen placement and sheet region. -/
structure GPUSprite where
  screen_region : Arr4
  sheet_region : Arr4
deriving DecidableEq, Repr

/-- `GPUCamera` from src/sprite.rs: camera position and screen size. -/
structure GPUCamera where
  screen_pos : Arr2
  screen_size : Arr2
deriving DecidableEq, Repr

/-- One serialized byte: the `f32` value it came from and which of its four
bytes it is.  Injective image of the `bytemuck` byte, so equality of byte
lists coincides with equality of the serialized data. -/
structure ByteM where
  val : F32
  lane : Fin 4
deriving DecidableEq, Repr

/-- The four bytes of one `f32` value. -/
def bytesOfF32 (v : F32) : List ByteM :=
  [⟨v, 0⟩, ⟨v, 1⟩, ⟨v, 2⟩, ⟨v, 3⟩]

/-- The sixteen bytes of a `[f32; 4]` field (`repr(C)` order). -/
def bytesOfArr4 (a : Arr4) : List ByteM :=
  bytesOfF32 a.x0 ++ bytesOfF32 a.x1 ++ bytesOfF32 a.x2 ++ bytesOfF32 a.x3

/-- The eight bytes of a `[f32; 2]` field (`repr(C)` order). -/
def bytesOfArr2 (a : Arr2) : List ByteM :=
  bytesOfF32 a.x0 ++ bytesOfF32 a.x1

/-- `bytemuck` bytes of one `GPUSprite` record: 32 bytes. -/
def bytesOfSprite (s : GPUSprite) : List ByteM :=
  bytesOfArr4 s.screen_region ++ bytesOfArr4 s.sheet_region

/-- `bytemuck::bytes_of` for a `GPUCamera` record: 16 bytes. -/
def bytesOfCamera (c : GPUCamera) : List ByteM :=
  bytesOfArr2 c.screen_pos ++ bytesOfArr2 c.screen_size

/-- `bytemuck::cast_slice` of a sprite slice to bytes. -/
def castSliceSprites (l : List GPUSprite) : List ByteM :=
  (l.map bytesOfSprite).flatten

/-- `std::mem::size_of::<GPUSprite>()`. -/
def spriteByteSize : Nat := 32

/-- `std::mem::size_of::<GPUCamera>()`. -/
def cameraByteSize : Nat := 16

/-- A GPU buffer: fixed length, cells `none` until first written. -/
def GpuBuffer := List (Option ByteM)
deriving DecidableEq, Repr

/-- `Device::create_buffer` with the given byte size, not mapped at
creation: every byte is uninitialized. -/
def createBuffer (size : Nat) : GpuBuffer :=
  List.replicate size none

/-- `Queue::write_buffer buf offset data`: splice `data` into `buf` at byte
offset `offset`; `none` (a wgpu validation failure) if the write does not
fit in the buffer. -/
def writeBuffer (buf : GpuBuffer) (offset : Nat) (data : List ByteM) :
    Option GpuBuffer :=
  if offset + data.length ≤ buf.length then
    some (buf.take offset ++ data.map some ++ buf.drop (offset + data.length))
  else
    none

/-- `SpriteGroup` from src/sprite.rs.  The texture bind group is recorded
by the id of the texture it was built from; the sprite bind group is the
pair of GPU buffers it binds (`buffer_camera`, `sprite_buffer`), which are
the fields themselves. -/
structure SpriteGroup where
  sprite_buffer : GpuBuffer
  sprites : List GPUSprite
  tex_bind_group : Nat
  camera : GPUCamera
  buffer_camera : GpuBuffer
deriving DecidableEq, Repr

/-- `SpriteRender` state: the ordered registry of groups.  The pipeline
and the two bind-group layouts are construction-time constants shared by
all groups and carry no data the claims depend on. -/
structure SpriteRender where
  groups : List SpriteGroup
deriving DecidableEq, Repr

/-- `SpriteRender::new`: empty registry. -/
def SpriteRender.new : SpriteRender := ⟨[]⟩

namespace SpriteRender

/-- `SpriteRender::add_sprite_group` (src/sprite.rs:163-233): allocate a
sprite buffer of exactly the byte length of `sprites` and a camera buffer
of one camera record, write both fully, and push the new group at the end
of the registry.  The Rust function returns `()` (the expression
`self.groups.len() - 1` on line 232 is commented out), so the translation
returns only the new state. -/
def add_sprite_group (r : SpriteRender) (tex : Nat)
    (sprites : List GPUSprite) (camera : GPUCamera) : Option SpriteRender := do
  let buffer_sprite := createBuffer (castSliceSprites sprites).length
  let buffer_camera := createBuffer cameraByteSize
  let buffer_sprite ← writeBuffer buffer_sprite 0 (castSliceSprites sprites)
  let buffer_camera ← writeBuffer buffer_camera 0 (bytesOfCamera camera)
  let g : SpriteGroup :=
    { sprite_buffer := buffer_sprite, sprites := sprites,
      tex_bind_group := tex, camera := camera,
      buffer_camera := buffer_camera }
  pure ⟨r.groups ++ [g]⟩

/-- `SpriteRender::set_camera` (src/sprite.rs:236-242): `self.groups[index]`
panics when `index` is out of range; otherwise overwrite the CPU camera and
push the full camera record to its GPU buffer. -/
def set_camera (r : SpriteRender) (index : Nat) (camera : GPUCamera) :
    Option SpriteRender := do
  let sg ← r.groups[index]?
  let sg := { sg with camera := camera }
  let bc ← writeBuffer sg.buffer_camera 0 (bytesOfCamera sg.camera)
  pure ⟨r.groups.set index { sg with buffer_camera := bc }⟩

/-- `SpriteRender::set_camera_all` (src/sprite.rs:243-247): apply
`set_camera` at every index of `0..self.groups.len()` in order. -/
def set_camera_all (r : SpriteRender) (camera : GPUCamera) :
    Option SpriteRender :=
  (List.range r.groups.length).foldlM
    (fun s sg_index => set_camera s sg_index camera) r

/-- Rust slice `l[a..b]`: panics unless `a ≤ b ∧ b ≤ l.length`. -/
def sliceRange (l : List GPUSprite) (a b : Nat) : Option (List GPUSprite) :=
  if a ≤ b ∧ b ≤ l.length then some ((l.drop a).take (b - a)) else none

/-- `SpriteRender::refresh_sprites` (src/sprite.rs:249-255): write the
bytes of `self.groups[which].sprites[range]` to that group's sprite buffer
at byte offset `range.start as u64` — the offset the source passes, in
bytes, NOT scaled by the sprite record size. -/
def refresh_sprites (r : SpriteRender) (which : Nat) (rstart rend : Nat) :
    Option SpriteRender := do
  let g ← r.groups[which]?
  let slice ← sliceRange g.sprites rstart rend
  let nb ← writeBuffer g.sprite_buffer rstart (castSliceSprites slice)
  pure ⟨r.groups.set which { g with sprite_buffer := nb }⟩

/-- Modelled from the spec (for comparison with `refresh_sprites`):
"pushes exactly the specified contiguous sub-range of the CPU sprite
sequence to the GPU buffer, at the matching offset", i.e. at byte offset
`range.start` times the sprite record size. -/
def refresh_sprites_specModel (r : SpriteRender) (which : Nat)
    (rstart rend : Nat) : Option SpriteRender := do
  let g ← r.groups[which]?
  let slice ← sliceRange g.sprites rstart rend
  let nb ← writeBuffer g.sprite_buffer (spriteByteSize * rstart)
      (castSliceSprites slice)
  pure ⟨r.groups.set which { g with sprite_buffer := nb }⟩

/-- Read through `SpriteRender::get_sprite_mut` (src/sprite.rs:257-259):
`&mut self.groups[which].sprites[range]`; panics (here `none`) when either
index is out of range. -/
def get_sprite_mut (r : SpriteRender) (which idx : Nat) : Option GPUSprite := do
  let g ← r.groups[which]?
  g.sprites[idx]?

/-- Write-back through the `&mut GPUSprite` returned by `get_sprite_mut`:
replace that one sprite in the CPU mirror (no GPU write happens). -/
def store_sprite_mut (r : SpriteRender) (which idx : Nat) (s : GPUSprite) :
    Option SpriteRender := do
  let g ← r.groups[which]?
  if idx < g.sprites.length then
    pure ⟨r.groups.set which { g with sprites := g.sprites.set idx s }⟩
  else
    none

/-- `SpriteRender::get_sprites` (src/sprite.rs:260-262). -/
def get_sprites (r : SpriteRender) (which : Nat) : Option (List GPUSprite) := do
  let g ← r.groups[which]?
  pure g.sprites

/-- Read through `SpriteRender::get_all_sprites_mut` (src/sprite.rs:263-265). -/
def get_all_sprites_mut (r : SpriteRender) (which : Nat) :
    Option (List GPUSprite) := do
  let g ← r.groups[which]?
  pure g.sprites

/-- Write-back through the `&mut [GPUSprite]` returned by
`get_all_sprites_mut`: a slice write can replace elements but never change
the length, so the new contents must have the same length. -/
def store_all_sprites_mut (r : SpriteRender) (which : Nat)
    (newSprites : List GPUSprite) : Option SpriteRender := do
  let g ← r.groups[which]?
  if newSprites.length = g.sprites.length then
    pure ⟨r.groups.set which { g with sprites := newSprites }⟩
  else
    none

/-- `SpriteRender::group_size` (src/sprite.rs:266-268): despite the name it
returns the group's sprite slice, with the same body as `get_sprites`. -/
def group_size (r : SpriteRender) (which : Nat) : Option (List GPUSprite) := do
  let g ← r.groups[which]?
  pure g.sprites

/-- `SpriteRender::update_position` (src/sprite.rs:285-288): overwrite the
`screen_region` of sprite 0 of group `sprite` (the parameter named
`sprite` is passed to `get_sprite_mut` as the group index). -/
def update_position (r : SpriteRender) (newRegion : Arr4) (sprite : Nat) :
    Option SpriteRender := do
  let theSprite ← r.get_sprite_mut sprite 0
  r.store_sprite_mut sprite 0 { theSprite with screen_region := newRegion }

/-- `SpriteRender::platform_move` (src/sprite.rs:291-296): for every sprite
of group 2, add 32.0 to `sheet_region[0]`. -/
def platform_move (r : SpriteRender) : Option SpriteRender := do
  let allPlatforms ← r.get_all_sprites_mut 2
  r.store_all_sprites_mut 2 (allPlatforms.map fun platform =>
    { platform with sheet_region :=
        { platform.sheet_region with x0 := platform.sheet_region.x0 + 32 } })

end SpriteRender

/-- Identity of a bind group bound during `render`: each registered group
owns one sprite bind group and one texture bind group, identified here by
the owning group's registry index. -/
inductive BindGroupRef where
  | spriteBind (group : Nat)
  | texBind (group : Nat)
deriving DecidableEq, Repr

/-- One command recorded into a `wgpu::RenderPass`. -/
inductive RenderCmd where
  | setPipeline
  | setBindGroup (slot : Nat) (bind : BindGroupRef)
  | draw (vstart vend istart iend : Nat)
deriving DecidableEq, Repr

/-- A render pass, modelled as the list of commands recorded so far, in
recording order. -/
abbrev RenderPass := List RenderCmd

namespace SpriteRender

/-- The loop body of `SpriteRender::render` for the group at registry
index `i`: bind the group's sprite bind group to slot 0, its texture bind
group to slot 1, and draw vertices `0..6` with instances
`0..group.sprites.len()`. -/
def renderGroupCmds (i : Nat) (g : SpriteGroup) : List RenderCmd :=
  [RenderCmd.setBindGroup 0 (BindGroupRef.spriteBind i),
   RenderCmd.setBindGroup 1 (BindGroupRef.texBind i),
   RenderCmd.draw 0 6 0 g.sprites.length]

/-- `SpriteRender::render` (src/sprite.rs:270-283): set the shared pipeline
once, then for each registered group, in registry order, record that
group's bind-group and draw commands into the pass. -/
def render (r : SpriteRender) (rpass : RenderPass) : RenderPass :=
  (r.groups.enum).foldl (fun rp ig => rp ++ renderGroupCmds ig.1 ig.2)
    (rpass ++ [RenderCmd.setPipeline])

end SpriteRender

/-- The instance-count argument of every draw command of a pass, in
recording order. -/
def drawInstanceCounts (p : RenderPass) : List Nat :=
  p.filterMap fun c =>
    match c with
    | RenderCmd.draw _ _ istart iend => some (iend - istart)
    | _ => none

/-- Whether a pass command is a pipeline bind. -/
def isSetPipeline (c : RenderCmd) : Bool :=
  match c with
  | RenderCmd.setPipeline => true
  | _ => false

/-- The public mutating operations of `SpriteRender`, as one step language
(reads like `get_sprites` and the recording-only `render` do not change
the state and are omitted; writes through the two `&mut` accessors appear
as `storeSprite` / `storeAllSprites`). -/
inductive Op where
  | addGroup (tex : Nat) (sprites : List GPUSprite) (camera : GPUCamera)
  | setCam (index : Nat) (camera : GPUCamera)
  | setCamAll (camera : GPUCamera)
  | refresh (which rstart rend : Nat)
  | updatePos (newRegion : Arr4) (sprite : Nat)
  | storeSprite (which idx : Nat) (s : GPUSprite)
  | storeAllSprites (which : Nat) (newSprites : List GPUSprite)
  | platformMove
deriving DecidableEq, Repr

/-- Whether a step is the one registering operation `add_sprite_group`. -/
def Op.isAddGroup : Op → Bool
  | Op.addGroup _ _ _ => true
  | _ => false

/-- Executing one public operation on the renderer state. -/
def Op.step (op : Op) (r : SpriteRender) : Option SpriteRender :=
  match op with
  | Op.addGroup tex sprites camera => r.add_sprite_group tex sprites camera
  | Op.setCam index camera => r.set_camera index camera
  | Op.setCamAll camera => r.set_camera_all camera
  | Op.refresh which rstart rend => r.refresh_sprites which rstart rend
  | Op.updatePos newRegion sprite => r.update_position newRegion sprite
  | Op.storeSprite which idx s => r.store_sprite_mut which idx s
  | Op.storeAllSprites which newSprites => r.store_all_sprites_mut which newSprites
  | Op.platformMove => r.platform_move

/-- The group record `add_sprite_group` pushes: both GPU buffers freshly
allocated and fully written from the CPU data. -/
def mkGroup (tex : Nat) (sprites : List GPUSprite) (camera : GPUCamera) :
    SpriteGroup :=
  { sprite_buffer := (castSliceSprites sprites).map some,
    sprites := sprites,
    tex_bind_group := tex,
    camera := camera,
    buffer_camera := (bytesOfCamera camera).map some }

/-- A group after `set_camera`: CPU camera replaced, camera-record bytes
rewritten at the start of the camera buffer. -/
def applyCamGroup (c : GPUCamera) (g : SpriteGroup) : SpriteGroup :=
  { g with
    camera := c
    buffer_camera :=
      (bytesOfCamera c).map some ++ g.buffer_camera.drop cameraByteSize }

/-- Two renderer states with the same number of groups and, slot by slot,
the same CPU sprite-sequence length. -/
def sameShape (r r' : SpriteRender) : Prop :=
  r'.groups.length = r.groups.length ∧
  ∀ i : Nat, (r'.groups[i]?).map (fun g => g.sprites.length)
    = (r.groups[i]?).map (fun g => g.sprites.length)

/-! ### Statement helper definitions and concrete example states -/

/-- One byte of the GPU sprite buffer of group `which`, read out of an
optional renderer state (`none` when the state, the group or the byte is
absent/uninitialized). -/
def spriteBufferByte (o : Option SpriteRender) (which k : Nat) :
    Option ByteM :=
  match o with
  | none => none
  | some r =>
      match r.groups[which]? with
      | none => none
      | some g => List.getD g.sprite_buffer k none

/-- The sprite record `update_position` writes: only `screen_region`
replaced. -/
def updatedSprite (s : GPUSprite) (reg : Arr4) : GPUSprite :=
  { s with screen_region := reg }

/-- The group record after `update_position`: sprite 0 replaced by
`updatedSprite`, all other fields untouched. -/
def updatedGroup (g : SpriteGroup) (s : GPUSprite) (reg : Arr4) :
    SpriteGroup :=
  { g with sprites := g.sprites.set 0 (updatedSprite s reg) }

/-- Example sprite whose eight scalars are all 0. -/
def demoS0 : GPUSprite := ⟨⟨0, 0, 0, 0⟩, ⟨0, 0, 0, 0⟩⟩

/-- Example sprite whose eight scalars are all 1. -/
def demoS1 : GPUSprite := ⟨⟨1, 1, 1, 1⟩, ⟨1, 1, 1, 1⟩⟩

/-- Example sprite whose eight scalars are all 2. -/
def demoS2 : GPUSprite := ⟨⟨2, 2, 2, 2⟩, ⟨2, 2, 2, 2⟩⟩

/-- Example camera. -/
def demoCam : GPUCamera := ⟨⟨0, 0⟩, ⟨1024, 768⟩⟩

/-- A second example camera. -/
def demoCam2 : GPUCamera := ⟨⟨3, 4⟩, ⟨800, 600⟩⟩

/-- The group created by `add_sprite_group` for texture 7, sprites
`[demoS0, demoS1]` and `demoCam`. -/
def demoGroup : SpriteGroup := mkGroup 7 [demoS0, demoS1] demoCam

/-- Renderer state after registering `demoGroup` on a fresh renderer. -/
def demoR : SpriteRender := ⟨[demoGroup]⟩

/-- `demoR` after overwriting CPU sprite 1 of group 0 with `demoS2`
through `get_sprite_mut` (GPU buffer left stale, as the explicit-push
model prescribes). -/
def demoRmut : SpriteRender :=
  ⟨[{ demoGroup with sprites := [demoS0, demoS2] }]⟩

/-! ### Basic facts about serialization and buffers -/

theorem bytesOfSprite_length (s : GPUSprite) :
    (bytesOfSprite s).length = spriteByteSize := rfl

theorem bytesOfCamera_length (c : GPUCamera) :
    (bytesOfCamera c).length = cameraByteSize := rfl

theorem castSliceSprites_length (l : List GPUSprite) :
    (castSliceSprites l).length = spriteByteSize * l.length := by
  induction l with
  | nil => rfl
  | cons s t ih =>
      simp only [castSliceSprites, spriteByteSize, List.map_cons,
        List.flatten_cons, List.length_append, List.length_cons,
        bytesOfSprite_length] at *
      omega

theorem castSliceSprites_append (l₁ l₂ : List GPUSprite) :
    castSliceSprites (l₁ ++ l₂) = castSliceSprites l₁ ++ castSliceSprites l₂ := by
  simp [castSliceSprites]

theorem createBuffer_length (n : Nat) : (createBuffer n).length = n :=
  List.length_replicate n none

/-- Writing a fresh buffer fully initializes every byte. -/
theorem writeBuffer_full (data : List ByteM) :
    writeBuffer (createBuffer data.length) 0 data = some (data.map some) := by
  simp [writeBuffer, createBuffer]

theorem writeBuffer_length (buf : GpuBuffer) (offset : Nat) (data : List ByteM)
    (out : GpuBuffer) (h : writeBuffer buf offset data = some out) :
    out.length = buf.length := by
  unfold writeBuffer at h
  split at h
  · cases h
    next hle =>
      simp only [List.length_append, List.length_take, List.length_drop,
        List.length_map]
      omega
  · cases h

/-! ### Characterizations of the operations -/

theorem SpriteRender.add_sprite_group_eq (r : SpriteRender) (tex : Nat)
    (sprites : List GPUSprite) (camera : GPUCamera) :
    r.add_sprite_group tex sprites camera
      = some ⟨r.groups ++ [mkGroup tex sprites camera]⟩ := by
  have h1 := writeBuffer_full (castSliceSprites sprites)
  have h2 := writeBuffer_full (bytesOfCamera camera)
  rw [bytesOfCamera_length] at h2
  simp [add_sprite_group, h1, h2, mkGroup]

theorem SpriteRender.set_camera_eq (r : SpriteRender) (i : Nat)
    (c : GPUCamera) (g : SpriteGroup) (hg : r.groups[i]? = some g)
    (hb : cameraByteSize ≤ g.buffer_camera.length) :
    r.set_camera i c = some ⟨r.groups.set i (applyCamGroup c g)⟩ := by
  have hw : writeBuffer g.buffer_camera 0 (bytesOfCamera c)
      = some ((bytesOfCamera c).map some
          ++ g.buffer_camera.drop cameraByteSize) := by
    unfold writeBuffer
    rw [if_pos (by rw [bytesOfCamera_length]; omega)]
    rw [bytesOfCamera_length]
    simp
  simp [set_camera, hg, hw, applyCamGroup]

theorem set_append_length_cons {α : Type} (pre : List α) (g x : α)
    (gs : List α) : (pre ++ g :: gs).set pre.length x = pre ++ x :: gs := by
  induction pre with
  | nil => rfl
  | cons p t ih => simp [List.set, ih]

theorem SpriteRender.set_camera_all_aux (c : GPUCamera) (gs : List SpriteGroup) :
    ∀ pre : List SpriteGroup,
      (∀ g ∈ gs, cameraByteSize ≤ g.buffer_camera.length) →
      (List.range' pre.length gs.length).foldlM
          (fun s sg_index => set_camera s sg_index c)
          (⟨pre ++ gs⟩ : SpriteRender)
        = some ⟨pre ++ gs.map (applyCamGroup c)⟩ := by
  induction gs with
  | nil => intro pre _; simp
  | cons g t ih =>
      intro pre hinv
      rw [List.length_cons, List.range'_succ, List.foldlM_cons]
      have hg : (SpriteRender.mk (pre ++ g :: t)).groups[pre.length]?
          = some g := by
        show (pre ++ g :: t)[pre.length]? = some g
        rw [List.getElem?_append_right (Nat.le_refl pre.length)]
        simp
      rw [set_camera_eq _ _ _ _ hg (hinv g (by simp))]
      simp only [set_append_length_cons]
      have hred :
          (do
            let init ← some (⟨pre ++ applyCamGroup c g :: t⟩ : SpriteRender)
            List.foldlM (fun s sg_index => set_camera s sg_index c) init
              (List.range' (pre.length + 1) t.length))
          = List.foldlM (fun s sg_index => set_camera s sg_index c)
              (⟨pre ++ applyCamGroup c g :: t⟩ : SpriteRender)
              (List.range' (pre.length + 1) t.length) := rfl
      rw [hred]
      have h2 : (⟨pre ++ applyCamGroup c g :: t⟩ : SpriteRender)
          = ⟨(pre ++ [applyCamGroup c g]) ++ t⟩ := by simp
      have h3 : pre.length + 1 = (pre ++ [applyCamGroup c g]).length := by simp
      rw [h2, h3]
      rw [ih (pre ++ [applyCamGroup c g]) (fun g hgm => hinv g (by simp [hgm]))]
      simp

/-- `set_camera_all` rewrites every group's CPU camera and pushes the new
camera record to every group's GPU camera buffer, in registry order. -/
theorem SpriteRender.set_camera_all_eq (r : SpriteRender) (c : GPUCamera)
    (hinv : ∀ g ∈ r.groups, cameraByteSize ≤ g.buffer_camera.length) :
    r.set_camera_all c = some ⟨r.groups.map (applyCamGroup c)⟩ := by
  have := set_camera_all_aux c r.groups [] hinv
  simpa [set_camera_all, List.range_eq_range'] using this

theorem applyCamGroup_idem (c : GPUCamera) (g : SpriteGroup) :
    applyCamGroup c (applyCamGroup c g) = applyCamGroup c g := by
  have h : ((bytesOfCamera c).map some
        ++ g.buffer_camera.drop cameraByteSize).drop cameraByteSize
      = g.buffer_camera.drop cameraByteSize := by
    have hl : ((bytesOfCamera c).map some).length = cameraByteSize := by
      rw [List.length_map, bytesOfCamera_length]
    have hd := List.drop_left ((bytesOfCamera c).map some)
      (g.buffer_camera.drop cameraByteSize)
    rw [hl] at hd
    exact hd
  simp [applyCamGroup, h]

theorem applyCamGroup_buffer_long (c : GPUCamera) (g : SpriteGroup) :
    cameraByteSize ≤ (applyCamGroup c g).buffer_camera.length := by
  simp only [applyCamGroup, List.length_append, List.length_map,
    bytesOfCamera_length]
  omega

/-! ### The command stream recorded by `render` -/

theorem foldl_append_cmds (l : List (Nat × SpriteGroup)) :
    ∀ acc : RenderPass,
      l.foldl (fun rp ig => rp ++ SpriteRender.renderGroupCmds ig.1 ig.2) acc
        = acc ++ (l.map fun ig => SpriteRender.renderGroupCmds ig.1 ig.2).flatten := by
  induction l with
  | nil => intro acc; simp
  | cons p t ih => intro acc; simp [ih, List.append_assoc]

theorem SpriteRender.render_eq (r : SpriteRender) (rpass : RenderPass) :
    r.render rpass
      = rpass ++ [RenderCmd.setPipeline]
        ++ (r.groups.enum.map fun ig => renderGroupCmds ig.1 ig.2).flatten := by
  rw [render, foldl_append_cmds, List.append_assoc]

theorem drawInstanceCounts_append (p q : RenderPass) :
    drawInstanceCounts (p ++ q)
      = drawInstanceCounts p ++ drawInstanceCounts q := by
  simp [drawInstanceCounts]

theorem drawInstanceCounts_groupCmds (l : List (Nat × SpriteGroup)) :
    drawInstanceCounts
        (l.map fun ig => SpriteRender.renderGroupCmds ig.1 ig.2).flatten
      = l.map fun ig => ig.2.sprites.length := by
  induction l with
  | nil => rfl
  | cons p t ih =>
      simp only [List.map_cons, List.flatten_cons, drawInstanceCounts_append, ih]
      simp [drawInstanceCounts, SpriteRender.renderGroupCmds]

theorem setPipeline_count_groupCmds (l : List (Nat × SpriteGroup)) :
    ((l.map fun ig => SpriteRender.renderGroupCmds ig.1 ig.2).flatten.filter
        isSetPipeline).length = 0 := by
  induction l with
  | nil => rfl
  | cons p t ih =>
      simp only [List.map_cons, List.flatten_cons, List.filter_append,
        List.length_append, ih]
      simp [SpriteRender.renderGroupCmds, isSetPipeline]

/-! ### Shape preservation: group count and per-group sprite counts -/

theorem sameShape_refl (r : SpriteRender) : sameShape r r :=
  ⟨rfl, fun _ => rfl⟩

theorem sameShape_trans {r₁ r₂ r₃ : SpriteRender} (h₁ : sameShape r₁ r₂)
    (h₂ : sameShape r₂ r₃) : sameShape r₁ r₃ :=
  ⟨h₂.1.trans h₁.1, fun i => (h₂.2 i).trans (h₁.2 i)⟩

/-- Replacing the group in one slot by a group with equally many sprites
preserves the shape. -/
theorem sameShape_set (r : SpriteRender) (i : Nat) (g g' : SpriteGroup)
    (hg : r.groups[i]? = some g) (hlen : g'.sprites.length = g.sprites.length) :
    sameShape r ⟨r.groups.set i g'⟩ := by
  have hi : i < r.groups.length := by
    rw [List.getElem?_eq_some] at hg
    exact hg.1
  refine ⟨List.length_set r.groups i g', fun j => ?_⟩
  by_cases hij : i = j
  · subst hij
    rw [List.getElem?_set_self hi, hg]
    simp [hlen]
  · rw [List.getElem?_set_ne hij]

theorem SpriteRender.set_camera_shape (r : SpriteRender) (i : Nat)
    (c : GPUCamera) (r' : SpriteRender) (h : r.set_camera i c = some r') :
    sameShape r r' := by
  unfold set_camera at h
  cases hg : r.groups[i]? with
  | none => rw [hg] at h; simp at h
  | some g =>
      rw [hg] at h
      replace h : (writeBuffer g.buffer_camera 0 (bytesOfCamera c)).bind
          (fun bc => some (⟨r.groups.set i
            { g with camera := c, buffer_camera := bc }⟩ : SpriteRender))
          = some r' := h
      cases hw : writeBuffer g.buffer_camera 0 (bytesOfCamera c) with
      | none => rw [hw] at h; simp at h
      | some bc =>
          rw [hw] at h
          simp at h
          subst h
          exact sameShape_set r i g _ hg rfl

theorem SpriteRender.refresh_sprites_shape (r : SpriteRender)
    (which a b : Nat) (r' : SpriteRender)
    (h : r.refresh_sprites which a b = some r') : sameShape r r' := by
  unfold refresh_sprites at h
  cases hg : r.groups[which]? with
  | none => rw [hg] at h; simp at h
  | some g =>
      rw [hg] at h
      replace h : (sliceRange g.sprites a b).bind (fun slice =>
          (writeBuffer g.sprite_buffer a (castSliceSprites slice)).bind
            (fun nb => some (⟨r.groups.set which
              { g with sprite_buffer := nb }⟩ : SpriteRender)))
          = some r' := h
      cases hs : sliceRange g.sprites a b with
      | none => rw [hs] at h; simp at h
      | some slice =>
          rw [hs] at h
          rw [Option.some_bind] at h
          cases hw : writeBuffer g.sprite_buffer a (castSliceSprites slice) with
          | none => rw [hw] at h; simp at h
          | some nb =>
              rw [hw] at h
              simp at h
              subst h
              exact sameShape_set r which g _ hg rfl

theorem SpriteRender.store_sprite_mut_shape (r : SpriteRender)
    (which idx : Nat) (s : GPUSprite) (r' : SpriteRender)
    (h : r.store_sprite_mut which idx s = some r') : sameShape r r' := by
  unfold store_sprite_mut at h
  cases hg : r.groups[which]? with
  | none => rw [hg] at h; simp at h
  | some g =>
      rw [hg] at h
      replace h : (if idx < g.sprites.length then
          some (⟨r.groups.set which
            { g with sprites := g.sprites.set idx s }⟩ : SpriteRender)
          else none) = some r' := h
      split at h
      · simp at h
        subst h
        exact sameShape_set r which g _ hg (List.length_set _ _ _)
      · cases h

theorem SpriteRender.store_all_sprites_mut_shape (r : SpriteRender)
    (which : Nat) (l : List GPUSprite) (r' : SpriteRender)
    (h : r.store_all_sprites_mut which l = some r') : sameShape r r' := by
  unfold store_all_sprites_mut at h
  cases hg : r.groups[which]? with
  | none => rw [hg] at h; simp at h
  | some g =>
      rw [hg] at h
      replace h : (if l.length = g.sprites.length then
          some (⟨r.groups.set which
            { g with sprites := l }⟩ : SpriteRender)
          else none) = some r' := h
      split at h
      · simp at h
        subst h
        next hl => exact sameShape_set r which g _ hg hl
      · cases h

theorem SpriteRender.update_position_shape (r : SpriteRender)
    (newRegion : Arr4) (n : Nat) (r' : SpriteRender)
    (h : r.update_position newRegion n = some r') : sameShape r r' := by
  unfold update_position at h
  cases hs : r.get_sprite_mut n 0 with
  | none => rw [hs] at h; simp at h
  | some theSprite =>
      rw [hs] at h
      replace h : r.store_sprite_mut n 0
          { theSprite with screen_region := newRegion } = some r' := h
      exact store_sprite_mut_shape r n 0 _ r' h

theorem SpriteRender.platform_move_shape (r : SpriteRender)
    (r' : SpriteRender) (h : r.platform_move = some r') : sameShape r r' := by
  unfold platform_move at h
  cases hs : r.get_all_sprites_mut 2 with
  | none => rw [hs] at h; simp at h
  | some allPlatforms =>
      rw [hs] at h
      replace h : r.store_all_sprites_mut 2 (allPlatforms.map fun platform =>
          { platform with sheet_region :=
              { platform.sheet_region with
                x0 := platform.sheet_region.x0 + 32 } }) = some r' := h
      exact store_all_sprites_mut_shape r 2 _ r' h

theorem SpriteRender.foldlM_set_camera_shape (c : GPUCamera) (l : List Nat) :
    ∀ r r' : SpriteRender,
      l.foldlM (fun s sg_index => set_camera s sg_index c) r = some r' →
      sameShape r r' := by
  induction l with
  | nil =>
      intro r r' h
      rw [List.foldlM_nil] at h
      cases h
      exact sameShape_refl r
  | cons a t ih =>
      intro r r' h
      rw [List.foldlM_cons] at h
      cases hc : r.set_camera a c with
      | none => rw [hc] at h; simp at h
      | some r₁ =>
          rw [hc] at h
          replace h : t.foldlM (fun s sg_index => set_camera s sg_index c) r₁
              = some r' := h
          exact sameShape_trans (set_camera_shape r a c r₁ hc) (ih r₁ r' h)

theorem SpriteRender.set_camera_all_shape (r : SpriteRender) (c : GPUCamera)
    (r' : SpriteRender) (h : r.set_camera_all c = some r') : sameShape r r' :=
  foldlM_set_camera_shape c (List.range r.groups.length) r r' h

/-! ### Claim theorems -/

/-- C1: refuted on the code — `refresh_sprites(handle, R)` does NOT write
the refreshed records at the byte offset `R.start` times the sprite record
size.  The source passes `range.start` itself (an element index) as the
byte offset of `write_buffer` while slicing `sprites[range]` by element
index.  Concretely: on a group created from `[demoS0, demoS1]` whose CPU
sprite 1 was then overwritten with `demoS2`, `refresh_sprites(0, 1..2)`
differs from the spec-modelled refresh; the spec-modelled refresh makes
buffer byte 63 the last byte of `demoS2` while the code leaves it stale
(last byte of the old `demoS1`), and the code overwrites byte 1 — a byte
outside the spec's target region `32..64` — which the spec-modelled
refresh leaves unchanged. -/
theorem SpriteRender.refresh_sprites_offset_divergence :
    demoR.store_sprite_mut 0 1 demoS2 = some demoRmut ∧
    demoRmut.refresh_sprites 0 1 2 ≠ demoRmut.refresh_sprites_specModel 0 1 2 ∧
    spriteBufferByte (demoRmut.refresh_sprites_specModel 0 1 2) 0 63
      = some ⟨2, 3⟩ ∧
    spriteBufferByte (demoRmut.refresh_sprites 0 1 2) 0 63 = some ⟨1, 3⟩ ∧
    spriteBufferByte (some demoRmut) 0 1 = some ⟨0, 1⟩ ∧
    spriteBufferByte (demoRmut.refresh_sprites_specModel 0 1 2) 0 1
      = some ⟨0, 1⟩ ∧
    spriteBufferByte (demoRmut.refresh_sprites 0 1 2) 0 1 = some ⟨2, 0⟩ := by
  refine ⟨by decide, by decide, by decide, by decide, by decide, by decide,
    by decide⟩

/-- C2: the registry-append part of the claim, proved on the code:
`add_sprite_group` always succeeds and appends the new group at the end of
the ordered registry, so the new group's index is the previous group
count (0 for the first registration, then 1, …).  The claim's other part
is refuted by the source itself: the Rust function's return type is `()` —
the handle-returning expression `self.groups.len() - 1` (src/sprite.rs:232)
is commented out — so no handle is returned to the caller. -/
theorem SpriteRender.add_sprite_group_appends (r : SpriteRender) (tex : Nat)
    (sprites : List GPUSprite) (camera : GPUCamera) :
    r.add_sprite_group tex sprites camera
      = some ⟨r.groups ++ [mkGroup tex sprites camera]⟩ ∧
    (⟨r.groups ++ [mkGroup tex sprites camera]⟩ :
        SpriteRender).groups[r.groups.length]?
      = some (mkGroup tex sprites camera) ∧
    (⟨r.groups ++ [mkGroup tex sprites camera]⟩ :
        SpriteRender).groups.length = r.groups.length + 1 := by
  refine ⟨add_sprite_group_eq r tex sprites camera, ?_, by simp⟩
  show (r.groups ++ [mkGroup tex sprites camera])[r.groups.length]?
      = some (mkGroup tex sprites camera)
  rw [List.getElem?_append_right (Nat.le_refl _)]
  simp

/-- C3: `render` records, after the commands already in the pass, the
shared pipeline bind exactly once and then, for each registered group in
registry order, a bind of that group's sprite bind group to slot 0, a bind
of its texture bind group to slot 1, and one draw of vertices `0..6` with
instance range `0..len(sprites)`; the recorded instance counts are exactly
the CPU sprite-sequence lengths of the groups, in registry order
(covering lengths 0, 1 and N). -/
theorem SpriteRender.render_commands (r : SpriteRender) (rpass : RenderPass) :
    r.render rpass
      = rpass ++ [RenderCmd.setPipeline]
        ++ (r.groups.enum.map fun ig => renderGroupCmds ig.1 ig.2).flatten ∧
    ((r.render rpass).filter isSetPipeline).length
      = (rpass.filter isSetPipeline).length + 1 ∧
    drawInstanceCounts (r.render rpass)
      = drawInstanceCounts rpass ++ r.groups.map fun g => g.sprites.length := by
  have hl : (r.groups.enum.map fun ig => ig.2.sprites.length)
      = r.groups.map fun g => g.sprites.length := by
    have : (fun ig : Nat × SpriteGroup => ig.2.sprites.length)
        = (fun g : SpriteGroup => g.sprites.length) ∘ Prod.snd := rfl
    rw [this, ← List.map_map, List.enum_map_snd]
  refine ⟨render_eq r rpass, ?_, ?_⟩
  · rw [render_eq r rpass]
    simp only [List.filter_append, List.length_append,
      setPipeline_count_groupCmds]
    simp [isSetPipeline]
  · rw [render_eq r rpass]
    simp only [drawInstanceCounts_append, drawInstanceCounts_groupCmds, hl]
    simp [drawInstanceCounts]

/-- C4: with every registered group holding a full-size camera buffer (as
every reachable state does — `add_sprite_group` allocates each camera
buffer at exactly one camera record), `set_camera_all(c)` succeeds and
replaces every group's CPU camera by `c` and every group's GPU camera
bytes by the serialization of `c`, in registry order; it is literally the
fold of `set_camera` over the handles `0..N` in order; and it is
idempotent — running it again on the resulting state returns that state
unchanged. -/
theorem SpriteRender.set_camera_all_correct (r : SpriteRender)
    (c : GPUCamera)
    (hinv : ∀ g ∈ r.groups, cameraByteSize ≤ g.buffer_camera.length) :
    r.set_camera_all c = some ⟨r.groups.map (applyCamGroup c)⟩ ∧
    (List.range r.groups.length).foldlM
        (fun s h => s.set_camera h c) r
      = some ⟨r.groups.map (applyCamGroup c)⟩ ∧
    (⟨r.groups.map (applyCamGroup c)⟩ : SpriteRender).set_camera_all c
      = some ⟨r.groups.map (applyCamGroup c)⟩ := by
  have h1 := set_camera_all_eq r c hinv
  refine ⟨h1, h1, ?_⟩
  have h2 := set_camera_all_eq ⟨r.groups.map (applyCamGroup c)⟩ c (by
    intro g hgm
    simp only [List.mem_map] at hgm
    obtain ⟨g₀, _, hg₀⟩ := hgm
    rw [← hg₀]
    exact applyCamGroup_buffer_long c g₀)
  rw [h2]
  have h3 : (r.groups.map (applyCamGroup c)).map (applyCamGroup c)
      = r.groups.map (applyCamGroup c) := by
    rw [List.map_map]
    exact List.map_congr_left fun g _ => applyCamGroup_idem c g
  rw [h3]

/-- C4 witness: on the concrete one-group state `demoR`, `set_camera_all`
with `demoCam2` yields exactly the mapped state. -/
theorem SpriteRender.set_camera_all_correct_witness :
    demoR.set_camera_all demoCam2
      = some ⟨demoR.groups.map (applyCamGroup demoCam2)⟩ :=
  (set_camera_all_correct demoR demoCam2 (by decide)).1

/-- C5: after `add_sprite_group(tex, sprites, camera)` the new group (at
index = previous group count) reports `get_sprites` equal to `sprites`
exactly and in order; its GPU sprite buffer has exactly the byte length of
`sprites` (sprite record size × count) and is fully written with the
serialized sprites; its camera buffer is exactly one camera record, fully
written with the serialized camera — GPU state mirrors the CPU state
passed in. -/
theorem SpriteRender.add_sprite_group_mirrors (r : SpriteRender) (tex : Nat)
    (sprites : List GPUSprite) (camera : GPUCamera) (r' : SpriteRender)
    (h : r.add_sprite_group tex sprites camera = some r') :
    r'.get_sprites r.groups.length = some sprites ∧
    ∀ g, r'.groups[r.groups.length]? = some g →
      g.sprites = sprites ∧
      g.sprite_buffer.length = spriteByteSize * sprites.length ∧
      g.sprite_buffer = (castSliceSprites sprites).map some ∧
      g.camera = camera ∧
      g.buffer_camera.length = cameraByteSize ∧
      g.buffer_camera = (bytesOfCamera camera).map some := by
  rw [add_sprite_group_eq] at h
  cases h
  have hget : (⟨r.groups ++ [mkGroup tex sprites camera]⟩ :
      SpriteRender).groups[r.groups.length]?
      = some (mkGroup tex sprites camera) := by
    show (r.groups ++ [mkGroup tex sprites camera])[r.groups.length]?
        = some (mkGroup tex sprites camera)
    rw [List.getElem?_append_right (Nat.le_refl _)]
    simp
  constructor
  · unfold get_sprites
    rw [hget]
    rfl
  · intro g hg
    rw [hget] at hg
    cases hg
    refine ⟨rfl, ?_, rfl, rfl, ?_, rfl⟩
    · show ((castSliceSprites sprites).map some).length = _
      rw [List.length_map, castSliceSprites_length]
    · show ((bytesOfCamera camera).map some).length = _
      rw [List.length_map, bytesOfCamera_length]

/-- C5 witness: registering `[demoS0, demoS1]` with `demoCam` on a fresh
renderer gives a group 0 whose CPU readback is exactly the input list. -/
theorem SpriteRender.add_sprite_group_mirrors_witness :
    (⟨[mkGroup 7 [demoS0, demoS1] demoCam]⟩ : SpriteRender).get_sprites
        SpriteRender.new.groups.length = some [demoS0, demoS1] :=
  (add_sprite_group_mirrors SpriteRender.new 7 [demoS0, demoS1] demoCam
    ⟨[mkGroup 7 [demoS0, demoS1] demoCam]⟩ (by decide)).1

/-- C6: out-of-range accesses fail fast with no result (the `none` of the
model is the Rust index/slice panic): a handle at or past the registry
count makes both `get_sprite_mut` and `refresh_sprites` fail; a sprite
index at or past the group's sprite count makes `get_sprite_mut` fail; a
range whose end exceeds the group's sprite count, or whose start exceeds
its end, makes `refresh_sprites` fail.  No truncation, clamping or
wrapping occurs, and no updated state is produced — the renderer state is
left unchanged by the failed call. -/
theorem SpriteRender.out_of_range_fails (r : SpriteRender)
    (which idx a b : Nat) :
    (r.groups.length ≤ which →
      r.get_sprite_mut which idx = none ∧
      r.refresh_sprites which a b = none) ∧
    (∀ g, r.groups[which]? = some g → g.sprites.length ≤ idx →
      r.get_sprite_mut which idx = none) ∧
    (∀ g, r.groups[which]? = some g → g.sprites.length < b →
      r.refresh_sprites which a b = none) ∧
    (∀ g, r.groups[which]? = some g → b < a →
      r.refresh_sprites which a b = none) := by
  refine ⟨fun hw => ?_, fun g hg hidx => ?_, fun g hg hb => ?_,
    fun g hg hba => ?_⟩
  · have hnone : r.groups[which]? = none := by
      rw [List.getElem?_eq_none_iff]
      exact hw
    constructor
    · unfold get_sprite_mut
      rw [hnone]
      rfl
    · unfold refresh_sprites
      rw [hnone]
      rfl
  · unfold get_sprite_mut
    rw [hg]
    show g.sprites[idx]? = none
    rw [List.getElem?_eq_none_iff]
    exact hidx
  · unfold refresh_sprites
    rw [hg]
    have hs : sliceRange g.sprites a b = none := by
      unfold sliceRange
      rw [if_neg]
      intro hc
      omega
    show (sliceRange g.sprites a b).bind _ = none
    rw [hs]
    rfl
  · unfold refresh_sprites
    rw [hg]
    have hs : sliceRange g.sprites a b = none := by
      unfold sliceRange
      rw [if_neg]
      intro hc
      omega
    show (sliceRange g.sprites a b).bind _ = none
    rw [hs]
    rfl

/-- C6 witness: on `demoR` (one group of two sprites), sprite index 2,
range `1..3`, reversed range `2..1` and handle 1 all fail. -/
theorem SpriteRender.out_of_range_fails_witness :
    demoR.get_sprite_mut 0 2 = none ∧
    demoR.refresh_sprites 0 1 3 = none ∧
    demoR.refresh_sprites 0 2 1 = none ∧
    demoR.get_sprite_mut 1 0 = none ∧
    demoR.refresh_sprites 1 0 0 = none :=
  ⟨(out_of_range_fails demoR 0 2 1 3).2.1 demoGroup (by decide) (by decide),
   (out_of_range_fails demoR 0 2 1 3).2.2.1 demoGroup (by decide) (by decide),
   (out_of_range_fails demoR 0 2 2 1).2.2.2 demoGroup (by decide) (by decide),
   ((out_of_range_fails demoR 1 0 0 0).1 (by decide)).1,
   ((out_of_range_fails demoR 1 0 0 0).1 (by decide)).2⟩

/-- C7: the registry is append-only.  For every public operation that
succeeds, the group count never decreases; every operation other than
`add_sprite_group` leaves the group count unchanged; and `add_sprite_group`
appends the new group at the end, preserving every existing registry slot,
so the new group's handle equals the previous group count — strictly
greater than every previously assigned handle — and existing handles keep
referring to their groups for the renderer's whole lifetime (there is no
removal operation in the step language, as in the source). -/
theorem SpriteRender.registry_append_only (op : Op) (r r' : SpriteRender)
    (h : op.step r = some r') :
    r.groups.length ≤ r'.groups.length ∧
    (op.isAddGroup = false → r'.groups.length = r.groups.length) ∧
    (∀ tex sprites camera, op = Op.addGroup tex sprites camera →
      r'.groups = r.groups ++ [mkGroup tex sprites camera] ∧
      r'.groups.length = r.groups.length + 1 ∧
      ∀ i, i < r.groups.length → r'.groups[i]? = r.groups[i]?) := by
  cases op with
  | addGroup tex sprites camera =>
      replace h : r.add_sprite_group tex sprites camera = some r' := h
      rw [add_sprite_group_eq] at h
      cases h
      refine ⟨by simp, fun hf => by simp [Op.isAddGroup] at hf,
        fun tex' sprites' camera' heq => ?_⟩
      injection heq with h1 h2 h3
      subst h1; subst h2; subst h3
      refine ⟨rfl, by simp, fun i hi => ?_⟩
      show (r.groups ++ [mkGroup tex sprites camera])[i]? = r.groups[i]?
      rw [List.getElem?_append, if_pos hi]
  | setCam index camera =>
      have hs := set_camera_shape r index camera r' h
      exact ⟨Nat.le_of_eq hs.1.symm, fun _ => hs.1,
        fun _ _ _ heq => by cases heq⟩
  | setCamAll camera =>
      have hs := set_camera_all_shape r camera r' h
      exact ⟨Nat.le_of_eq hs.1.symm, fun _ => hs.1,
        fun _ _ _ heq => by cases heq⟩
  | refresh which rstart rend =>
      have hs := refresh_sprites_shape r which rstart rend r' h
      exact ⟨Nat.le_of_eq hs.1.symm, fun _ => hs.1,
        fun _ _ _ heq => by cases heq⟩
  | updatePos newRegion sprite =>
      have hs := update_position_shape r newRegion sprite r' h
      exact ⟨Nat.le_of_eq hs.1.symm, fun _ => hs.1,
        fun _ _ _ heq => by cases heq⟩
  | storeSprite which idx s =>
      have hs := store_sprite_mut_shape r which idx s r' h
      exact ⟨Nat.le_of_eq hs.1.symm, fun _ => hs.1,
        fun _ _ _ heq => by cases heq⟩
  | storeAllSprites which newSprites =>
      have hs := store_all_sprites_mut_shape r which newSprites r' h
      exact ⟨Nat.le_of_eq hs.1.symm, fun _ => hs.1,
        fun _ _ _ heq => by cases heq⟩
  | platformMove =>
      have hs := platform_move_shape r r' h
      exact ⟨Nat.le_of_eq hs.1.symm, fun _ => hs.1,
        fun _ _ _ heq => by cases heq⟩

/-- C7 witness: a non-registering operation (`set_camera`) on `demoR`
keeps the group count at 1, and a registration appends. -/
theorem SpriteRender.registry_append_only_witness :
    (⟨[applyCamGroup demoCam2 demoGroup]⟩ : SpriteRender).groups.length
      = demoR.groups.length :=
  (registry_append_only (Op.setCam 0 demoCam2) demoR
    ⟨[applyCamGroup demoCam2 demoGroup]⟩ (by decide)).2.1 rfl

/-- C8: `group_size` and `get_sprites` are extensionally equal — despite
its name, `group_size` returns the group's full sprite slice (with the
very same body), not a count. -/
theorem SpriteRender.group_size_eq_get_sprites (r : SpriteRender)
    (which : Nat) : r.group_size which = r.get_sprites which := rfl

/-- C9: `update_position(r, n)` treats its second argument as the GROUP
index: it overwrites the `screen_region` of sprite 0 of group `n` with
`r`, keeps that sprite's `sheet_region`, every other sprite of the group,
every other group, the group's camera, both its GPU buffers and its
texture binding, and the registry length unchanged.  (No GPU write is
issued: the sprite buffer field is untouched.) -/
theorem SpriteRender.update_position_effect (r : SpriteRender)
    (newRegion : Arr4) (n : Nat) (g : SpriteGroup) (s : GPUSprite)
    (hg : r.groups[n]? = some g) (hs : g.sprites[0]? = some s) :
    r.update_position newRegion n
      = some ⟨r.groups.set n (updatedGroup g s newRegion)⟩ ∧
    (r.groups.set n (updatedGroup g s newRegion)).length
      = r.groups.length ∧
    (∀ m, m ≠ n →
      (r.groups.set n (updatedGroup g s newRegion))[m]? = r.groups[m]?) ∧
    (updatedGroup g s newRegion).sprites[0]?
      = some (updatedSprite s newRegion) ∧
    (updatedSprite s newRegion).screen_region = newRegion ∧
    (updatedSprite s newRegion).sheet_region = s.sheet_region ∧
    (∀ j, j ≠ 0 →
      (updatedGroup g s newRegion).sprites[j]? = g.sprites[j]?) ∧
    (updatedGroup g s newRegion).camera = g.camera ∧
    (updatedGroup g s newRegion).buffer_camera = g.buffer_camera ∧
    (updatedGroup g s newRegion).sprite_buffer = g.sprite_buffer ∧
    (updatedGroup g s newRegion).tex_bind_group = g.tex_bind_group := by
  have h0 : 0 < g.sprites.length := by
    rw [List.getElem?_eq_some] at hs
    exact hs.1
  refine ⟨?_, List.length_set _ _ _, fun m hm => ?_, ?_, rfl, rfl,
    fun j hj => ?_, rfl, rfl, rfl, rfl⟩
  · unfold update_position
    have hget : r.get_sprite_mut n 0 = some s := by
      unfold get_sprite_mut
      rw [hg]
      show g.sprites[0]? = some s
      exact hs
    rw [hget]
    show r.store_sprite_mut n 0 (updatedSprite s newRegion) = _
    unfold store_sprite_mut
    rw [hg]
    show (if 0 < g.sprites.length then
        some (⟨r.groups.set n
          { g with sprites := g.sprites.set 0 (updatedSprite s newRegion) }⟩
          : SpriteRender)
      else none) = _
    rw [if_pos h0]
    rfl
  · rw [List.getElem?_set_ne (fun hc => hm hc.symm)]
  · show (g.sprites.set 0 (updatedSprite s newRegion))[0]? = _
    rw [List.getElem?_set_self h0]
  · show (g.sprites.set 0 (updatedSprite s newRegion))[j]? = _
    rw [List.getElem?_set_ne (fun hc => hj hc.symm)]

/-- C9 witness: on `demoR`, `update_position(⟨9,9,9,9⟩, 0)` rewrites the
screen region of sprite 0 of group 0. -/
theorem SpriteRender.update_position_effect_witness :
    demoR.update_position ⟨9, 9, 9, 9⟩ 0
      = some ⟨demoR.groups.set 0 (updatedGroup demoGroup demoS0 ⟨9, 9, 9, 9⟩)⟩ :=
  (update_position_effect demoR ⟨9, 9, 9, 9⟩ 0 demoGroup demoS0
    (by decide) (by decide)).1

/-- C10: every public mutating operation that succeeds preserves the
length of the CPU sprite sequence of every already-registered group (slot
by slot); every operation other than `add_sprite_group` also preserves the
number of registered groups, and `add_sprite_group` is the only operation
that changes the group count — by exactly one.  No operation changes any
sprite sequence's length after registration. -/
theorem SpriteRender.op_preserves_lengths (op : Op) (r r' : SpriteRender)
    (h : op.step r = some r') :
    (∀ i, i < r.groups.length →
      (r'.groups[i]?).map (fun g => g.sprites.length)
        = (r.groups[i]?).map (fun g => g.sprites.length)) ∧
    (op.isAddGroup = false → r'.groups.length = r.groups.length) ∧
    (op.isAddGroup = true → r'.groups.length = r.groups.length + 1) := by
  cases op with
  | addGroup tex sprites camera =>
      replace h : r.add_sprite_group tex sprites camera = some r' := h
      rw [add_sprite_group_eq] at h
      cases h
      refine ⟨fun i hi => ?_, fun hf => by simp [Op.isAddGroup] at hf,
        fun _ => by simp⟩
      have : (r.groups ++ [mkGroup tex sprites camera])[i]? = r.groups[i]? := by
        rw [List.getElem?_append, if_pos hi]
      show ((r.groups ++ [mkGroup tex sprites camera])[i]?).map _ = _
      rw [this]
  | setCam index camera =>
      have hs := set_camera_shape r index camera r' h
      exact ⟨fun i _ => hs.2 i, fun _ => hs.1,
        fun ht => by simp [Op.isAddGroup] at ht⟩
  | setCamAll camera =>
      have hs := set_camera_all_shape r camera r' h
      exact ⟨fun i _ => hs.2 i, fun _ => hs.1,
        fun ht => by simp [Op.isAddGroup] at ht⟩
  | refresh which rstart rend =>
      have hs := refresh_sprites_shape r which rstart rend r' h
      exact ⟨fun i _ => hs.2 i, fun _ => hs.1,
        fun ht => by simp [Op.isAddGroup] at ht⟩
  | updatePos newRegion sprite =>
      have hs := update_position_shape r newRegion sprite r' h
      exact ⟨fun i _ => hs.2 i, fun _ => hs.1,
        fun ht => by simp [Op.isAddGroup] at ht⟩
  | storeSprite which idx s =>
      have hs := store_sprite_mut_shape r which idx s r' h
      exact ⟨fun i _ => hs.2 i, fun _ => hs.1,
        fun ht => by simp [Op.isAddGroup] at ht⟩
  | storeAllSprites which newSprites =>
      have hs := store_all_sprites_mut_shape r which newSprites r' h
      exact ⟨fun i _ => hs.2 i, fun _ => hs.1,
        fun ht => by simp [Op.isAddGroup] at ht⟩
  | platformMove =>
      have hs := platform_move_shape r r' h
      exact ⟨fun i _ => hs.2 i, fun _ => hs.1,
        fun ht => by simp [Op.isAddGroup] at ht⟩

/-- C10 witness: overwriting sprite 1 of group 0 of `demoR` through
`get_sprite_mut` keeps group 0 at two sprites. -/
theorem SpriteRender.op_preserves_lengths_witness :
    (demoRmut.groups[0]?).map (fun g => g.sprites.length)
      = (demoR.groups[0]?).map (fun g => g.sprites.length) :=
  (op_preserves_lengths (Op.storeSprite 0 1 demoS2) demoR demoRmut
    (by decide)).1 0 (by decide)
